import Mathlib

/-!
Shallow embedding of the PDF-bot conversation core (MohammadAky/PDF-bot).

The embedding covers:
* `bot/states.py` — the per-user session store (four global dictionaries
  keyed by user id: language, state tag, staged file list, temp key/value
  data) and the `UserStateManager` operations over them;
* the dispatch logic of `bot/handlers.py` (`handle_document` routing,
  `handle_merge_document`, `handle_rotation_angle`,
  `handle_unlock_password`) and of `bot/callbacks.py`
  (`button_callback` navigation, `handle_language_selection`,
  `handle_merge_start`, `handle_do_merge`);
* `utils/file_manager.py` — `cleanup_files` over an explicit model of the
  filesystem (a duplicate-free set of existing paths).

Python dictionaries keyed by `int` are modelled as functions
`Nat → Option α`; a missing key is `none`.  The inner temp-data dict
(`Dict[str, Any]`, values are file paths here) is an association list.
Each dispatcher handler is a pure function from the inputs and the global
state to a `HandlerResult` recording the new global state, the localized
text keys replied (in order), the Operation Adapter calls made, and the
paths handed to `cleanup_files`.  Adapter outcomes (the library calls can
raise) are supplied by an `AdapterOracle`: `some path` is a successful
return of an output artifact, `none` is a raised exception, caught by the
handler's `except` clause exactly where the source catches it.
-/

namespace PDFBot

/-- `DEFAULT_LANGUAGE` from `config/settings.py`. -/
def DEFAULT_LANGUAGE : String := "en"

/-- The per-user temp dict `Dict[str, Any]` (values are file paths). -/
abbrev TempData := List (String × String)

/-- The four module-level dictionaries of `bot/states.py`. -/
structure BotState where
  user_languages : Nat → Option String
  user_states : Nat → Option String
  user_files : Nat → Option (List String)
  user_temp_data : Nat → Option TempData

/-- Point update of a dictionary modelled as a function; `none` deletes. -/
def setFun {α : Type} (f : Nat → Option α) (u : Nat) (v : Option α) :
    Nat → Option α :=
  fun x => if x = u then v else f x

/-- Python dict assignment `d[k] = v` on an association list: replaces the
first binding of `k`, appends a fresh binding otherwise. -/
def dictSet (d : TempData) (k v : String) : TempData :=
  match d with
  | [] => [(k, v)]
  | (k', v') :: rest =>
      if k' = k then (k, v) :: rest else (k', v') :: dictSet rest k v

/-- `get_user_language` (`bot/states.py`). -/
def get_user_language (st : BotState) (u : Nat) : String :=
  (st.user_languages u).getD DEFAULT_LANGUAGE

/-- `set_user_language` (`bot/states.py`). -/
def set_user_language (st : BotState) (u : Nat) (language : String) :
    BotState :=
  { st with user_languages := setFun st.user_languages u (some language) }

namespace UserStateManager

/-- `UserStateManager.get_state`: `user_states.get(user_id)`. -/
def get_state (st : BotState) (u : Nat) : Option String :=
  st.user_states u

/-- `UserStateManager.set_state`. -/
def set_state (st : BotState) (u : Nat) (s : String) : BotState :=
  { st with user_states := setFun st.user_states u (some s) }

/-- `UserStateManager.clear_state`: deletes the key if present. -/
def clear_state (st : BotState) (u : Nat) : BotState :=
  { st with user_states := setFun st.user_states u none }

/-- `UserStateManager.get_files`: `user_files.get(user_id, [])`. -/
def get_files (st : BotState) (u : Nat) : List String :=
  (st.user_files u).getD []

/-- `UserStateManager.add_file`: creates the list if absent, appends. -/
def add_file (st : BotState) (u : Nat) (file_path : String) : BotState :=
  match st.user_files u with
  | none => { st with user_files := setFun st.user_files u (some [file_path]) }
  | some l =>
      { st with user_files := setFun st.user_files u (some (l ++ [file_path])) }

/-- `UserStateManager.clear_files`: resets to `[]` if the key exists. -/
def clear_files (st : BotState) (u : Nat) : BotState :=
  match st.user_files u with
  | none => st
  | some _ => { st with user_files := setFun st.user_files u (some []) }

/-- `UserStateManager.get_temp`. -/
def get_temp (st : BotState) (u : Nat) (key : String) : Option String :=
  match st.user_temp_data u with
  | none => none
  | some d => (d.find? (fun kv => kv.1 = key)).map (fun kv => kv.2)

/-- `UserStateManager.set_temp`: creates the inner dict if absent. -/
def set_temp (st : BotState) (u : Nat) (key value : String) : BotState :=
  match st.user_temp_data u with
  | none =>
      { st with user_temp_data := setFun st.user_temp_data u (some [(key, value)]) }
  | some d =>
      { st with user_temp_data := setFun st.user_temp_data u (some (dictSet d key value)) }

/-- `UserStateManager.clear_temp`: deletes the user's temp dict. -/
def clear_temp (st : BotState) (u : Nat) : BotState :=
  { st with user_temp_data := setFun st.user_temp_data u none }

/-- `UserStateManager.clear_all`. -/
def clear_all (st : BotState) (u : Nat) : BotState :=
  clear_temp (clear_files (clear_state st u) u) u

end UserStateManager

/-- Where `handle_document` (`bot/handlers.py`) routes a document upload,
as a function of the session's current state tag. -/
inductive DocRoute where
  | merge
  | compress
  | rotate
  | unlock
  | protect
  | extractPages
  | removePages
  | watermark
  | pageNumbers
  | convert
deriving DecidableEq, Repr

/-- The `if`/`elif` chain of `handle_document` over
`state = state_manager.get_state(user_id)`; the `else` branch is the
default document-to-PDF conversion path (`handle_convert_document`). -/
def route_document (state : Option String) : DocRoute :=
  if state = some "merging" then DocRoute.merge
  else if state = some "compressing" then DocRoute.compress
  else if state = some "rotating" then DocRoute.rotate
  else if state = some "unlocking" then DocRoute.unlock
  else if state = some "protecting" then DocRoute.protect
  else if state = some "extracting_pages" then DocRoute.extractPages
  else if state = some "removing_pages" then DocRoute.removePages
  else if state = some "adding_watermark" then DocRoute.watermark
  else if state = some "adding_page_numbers" then DocRoute.pageNumbers
  else DocRoute.convert

/-- The nine state tags that `handle_document` routes specially. -/
def routed_states : List (Option String) :=
  [some "merging", some "compressing", some "rotating", some "unlocking",
   some "protecting", some "extracting_pages", some "removing_pages",
   some "adding_watermark", some "adding_page_numbers"]

/-- Python `str.strip()` on the character list: drop whitespace at both
ends. -/
def pyStripChars (cs : List Char) : List Char :=
  ((cs.dropWhile Char.isWhitespace).reverse.dropWhile Char.isWhitespace).reverse

/-- Value of an ASCII digit string. -/
def digitsToNat (cs : List Char) : Nat :=
  cs.foldl (fun acc c => acc * 10 + (c.toNat - 48)) 0

/-- Python `int(s.strip())` over the ASCII integer-literal grammar:
optional sign, then decimal digits only; anything else raises
`ValueError` (here: `none`). -/
def pyParseInt (s : String) : Option Int :=
  let t := pyStripChars s.data
  match t with
  | [] => none
  | c :: rest =>
      let digits := if c = '-' || c = '+' then rest else t
      if digits ≠ [] ∧ digits.all Char.isDigit then
        if c = '-' then some (-(digitsToNat digits : Int))
        else some (digitsToNat digits : Int)
      else none

/-- ASCII lower-casing of one character (`str.lower()` restricted to the
range that can influence a ".pdf" suffix test). -/
def asciiLower (c : Char) : Char :=
  if 'A' ≤ c ∧ c ≤ 'Z' then Char.ofNat (c.toNat + 32) else c

/-- Python `file_path.lower().endswith(".pdf")`. -/
def pyLowerEndsWithPdf (s : String) : Bool :=
  ['.', 'p', 'd', 'f'].isSuffixOf (s.data.map asciiLower)

/-- Python `str.split(sep)` for a one-character separator. -/
def pySplitChar (sep : Char) : List Char → List (List Char)
  | [] => [[]]
  | c :: rest =>
      match pySplitChar sep rest with
      | [] => [[]]
      | g :: gs => if c = sep then [] :: g :: gs else (c :: g) :: gs

/-- Python `data.split("_")[1]` (the callback data always contains a "_",
so index 1 exists). -/
def pySplitIndex1 (data : String) : String :=
  String.mk ((pySplitChar '_' data.data).getD 1 [])

/-- One Operation Adapter invocation, with the arguments the dispatcher
passed (a `none` path means Python `None` was passed through). -/
inductive AdapterCall where
  | mergePdfs (files : List String)
  | rotatePdf (path : Option String) (angle : Int)
  | unlockPdf (path : Option String) (password : String)
deriving DecidableEq, Repr

/-- Outcomes of the adapter calls a handler may make: `some out` is a
returned output-artifact path, `none` is a raised exception. -/
structure AdapterOracle where
  merge_pdfs : List String → Option String
  rotate_pdf : Option String → Int → Option String
  unlock_pdf : Option String → String → Option String

/-- Observable outcome of one dispatcher handler invocation. -/
structure HandlerResult where
  state : BotState
  replies : List String
  calls : List AdapterCall
  cleaned : List (Option String)

/-- `handle_do_merge` (`bot/callbacks.py`): precondition check, adapter
call, success path (send artifact, `cleanup_files(files + [output_path])`,
`clear_state`, `clear_files`) and `except` path (generic "error" reply,
nothing cleared, nothing cleaned). -/
def handle_do_merge (oracle : AdapterOracle) (u : Nat) (st : BotState) :
    HandlerResult :=
  let files := UserStateManager.get_files st u
  if files.length < 2 then
    { state := st, replies := ["no_pdfs"], calls := [], cleaned := [] }
  else
    match oracle.merge_pdfs files with
    | some output_path =>
        { state := UserStateManager.clear_files
            (UserStateManager.clear_state st u) u,
          replies := ["merging_pdfs", "pdfs_merged", "success"],
          calls := [AdapterCall.mergePdfs files],
          cleaned := files.map some ++ [some output_path] }
    | none =>
        { state := st,
          replies := ["merging_pdfs", "error"],
          calls := [AdapterCall.mergePdfs files],
          cleaned := [] }

/-- `handle_merge_start` (`bot/callbacks.py`): sets state "merging",
clears the file list, prompts for PDFs. -/
def handle_merge_start (u : Nat) (st : BotState) : BotState × String :=
  (UserStateManager.clear_files (UserStateManager.set_state st u "merging") u,
   "send_pdfs")

/-- `handle_merge_document` (`bot/handlers.py`): rejects (and deletes)
non-PDF uploads, otherwise appends to the user's file list and reports a
running count. -/
def handle_merge_document (u : Nat) (file_path : String) (st : BotState) :
    HandlerResult :=
  if !(pyLowerEndsWithPdf file_path) then
    { state := st, replies := ["pdf_only"], calls := [],
      cleaned := [some file_path] }
  else
    { state := UserStateManager.add_file st u file_path,
      replies := ["pdfs_count"], calls := [], cleaned := [] }

/-- `handle_rotation_angle` (`bot/handlers.py`): parse the angle
(`ValueError` → "invalid_rotation" re-prompt), check membership in
`[90, 180, 270]` (failure → "invalid_rotation" re-prompt), then invoke
`rotate_pdf`; on success `cleanup_files([pdf_path, output_path])` and
`clear_state`; on adapter exception the generic "error" reply with
nothing cleared and nothing cleaned. -/
def handle_rotation_angle (oracle : AdapterOracle) (u : Nat) (text : String)
    (st : BotState) : HandlerResult :=
  match pyParseInt text with
  | none =>
      { state := st, replies := ["invalid_rotation"], calls := [],
        cleaned := [] }
  | some angle =>
      if angle ∉ ([90, 180, 270] : List Int) then
        { state := st, replies := ["invalid_rotation"], calls := [],
          cleaned := [] }
      else
        let pdf_path := UserStateManager.get_temp st u "pdf_path"
        match oracle.rotate_pdf pdf_path angle with
        | some output_path =>
            { state := UserStateManager.clear_state st u,
              replies := ["rotating_pdf", "pdf_rotated"],
              calls := [AdapterCall.rotatePdf pdf_path angle],
              cleaned := [pdf_path, some output_path] }
        | none =>
            { state := st,
              replies := ["rotating_pdf", "error"],
              calls := [AdapterCall.rotatePdf pdf_path angle],
              cleaned := [] }

/-- `handle_unlock_password` (`bot/handlers.py`): invoke `unlock_pdf`
with the staged "pdf_path" temp value; on success clean up and
`clear_state`; on adapter exception reply "password_incorrect" (not the
generic "error"), leaving state and temp data untouched. -/
def handle_unlock_password (oracle : AdapterOracle) (u : Nat)
    (password : String) (st : BotState) : HandlerResult :=
  let pdf_path := UserStateManager.get_temp st u "pdf_path"
  match oracle.unlock_pdf pdf_path password with
  | some output_path =>
      { state := UserStateManager.clear_state st u,
        replies := ["unlocking_pdf", "pdf_unlocked"],
        calls := [AdapterCall.unlockPdf pdf_path password],
        cleaned := [pdf_path, some output_path] }
  | none =>
      { state := st,
        replies := ["unlocking_pdf", "password_incorrect"],
        calls := [AdapterCall.unlockPdf pdf_path password],
        cleaned := [] }

/-- `handle_language_selection` (`bot/callbacks.py`): extracts the code
after the first "_" of the callback data (`data.split("_")[1]`), stores
it, and redisplays the main menu with a "language_changed" message.  The
session state dictionary is not touched. -/
def handle_language_selection (u : Nat) (data : String) (st : BotState) :
    BotState × String :=
  let lang_code := pySplitIndex1 data
  (set_user_language st u lang_code, "language_changed")

/-- Which inline menu a navigation command displays. -/
inductive Menu where
  | main
  | organize
  | optimize
  | convert
  | edit
  | security
deriving DecidableEq, Repr

/-- The navigation callback commands of `button_callback`
(`bot/callbacks.py`): the five menu categories and "back". -/
def navigation_commands : List String :=
  ["back_to_menu", "menu_organize", "menu_optimize", "menu_convert",
   "menu_edit", "menu_security"]

/-- The navigation branch of `button_callback` (`bot/callbacks.py`):
"back_to_menu" runs `clear_state` before redisplaying the main menu; the
five `menu_*` commands only edit the displayed keyboard. -/
def handle_navigation (u : Nat) (data : String) (st : BotState) :
    BotState × Menu :=
  if data = "back_to_menu" then (UserStateManager.clear_state st u, Menu.main)
  else if data = "menu_organize" then (st, Menu.organize)
  else if data = "menu_optimize" then (st, Menu.optimize)
  else if data = "menu_convert" then (st, Menu.convert)
  else if data = "menu_edit" then (st, Menu.edit)
  else if data = "menu_security" then (st, Menu.security)
  else (st, Menu.main)

/-- `os.remove`: deletes the path if it exists, raises `FileNotFoundError`
otherwise; `fails` is an environment oracle for other `OSError`s
(permissions etc.). -/
def os_remove (fails : String → Bool) (fs : List String) (p : String) :
    Except String (List String) :=
  if fails p = true then Except.error p
  else if p ∈ fs then Except.ok (fs.filter (fun q => ¬ q = p))
  else Except.error p

/-- Result of `cleanup_files`: the surviving filesystem, the paths on
which `os.remove` was attempted, and the failures that were logged by the
`except` clause (never re-raised). -/
structure CleanupResult where
  fs : List String
  attempts : List String
  errors : List String
deriving DecidableEq, Repr

/-- One iteration of the `for file_path in file_paths` loop of
`cleanup_files` (`utils/file_manager.py`): skip falsy (`None`/empty) and
non-existent paths, attempt `os.remove` otherwise, catching and logging
any exception. -/
def cleanup_step (fails : String → Bool) (acc : CleanupResult)
    (fp : Option String) : CleanupResult :=
  match fp with
  | none => acc
  | some p =>
      if p ≠ "" ∧ p ∈ acc.fs then
        match os_remove fails acc.fs p with
        | Except.ok fs' =>
            { fs := fs', attempts := acc.attempts ++ [p], errors := acc.errors }
        | Except.error e =>
            { fs := acc.fs, attempts := acc.attempts ++ [p],
              errors := acc.errors ++ [e] }
      else acc

/-- `cleanup_files` (`utils/file_manager.py`) run against a filesystem
`fs` (the set of currently existing paths). -/
def cleanup_files (fails : String → Bool) (file_paths : List (Option String))
    (fs : List String) : CleanupResult :=
  file_paths.foldl (cleanup_step fails) { fs := fs, attempts := [], errors := [] }

/-- A remove oracle under which `os.remove` only fails on missing paths. -/
def noFail : String → Bool := fun _ => false

/-- The empty session store: no user has any entry. -/
def emptyState : BotState :=
  { user_languages := fun _ => none, user_states := fun _ => none,
    user_files := fun _ => none, user_temp_data := fun _ => none }

/-- An oracle whose every adapter call raises. -/
def failOracle : AdapterOracle :=
  { merge_pdfs := fun _ => none, rotate_pdf := fun _ _ => none,
    unlock_pdf := fun _ _ => none }

/-- An oracle whose every adapter call succeeds with a fixed output. -/
def okOracle : AdapterOracle :=
  { merge_pdfs := fun _ => some "merged.pdf",
    rotate_pdf := fun _ _ => some "rotated.pdf",
    unlock_pdf := fun _ _ => some "unlocked.pdf" }

/-- User 1 mid-merge with two staged PDFs. -/
def stMergeTwo : BotState :=
  UserStateManager.add_file
    (UserStateManager.add_file
      (UserStateManager.set_state emptyState 1 "merging") 1 "a.pdf")
    1 "b.pdf"

/-- User 1 waiting for a rotation angle with a staged PDF parameter. -/
def stRotateReady : BotState :=
  UserStateManager.set_temp
    (UserStateManager.set_state emptyState 1 "rotating_wait_angle")
    1 "pdf_path" "doc.pdf"

/-- User 1 in state "merging" with no files. -/
def stMergingOnly : BotState :=
  UserStateManager.set_state emptyState 1 "merging"

/-- User 1 waiting for an unlock password with a staged PDF parameter. -/
def stUnlockReady : BotState :=
  UserStateManager.set_temp
    (UserStateManager.set_state emptyState 1 "unlocking_wait_password")
    1 "pdf_path" "locked.pdf"

/-- The C8 scenario prefix: press the merge button, then upload three
documents, composing `handle_merge_start` with `handle_merge_document`. -/
def merge_three (u : Nat) (st : BotState) (p1 p2 p3 : String) : BotState :=
  (handle_merge_document u p3
    (handle_merge_document u p2
      (handle_merge_document u p1
        (handle_merge_start u st).1).state).state).state

end PDFBot

namespace PDFBot

@[simp] theorem setFun_same {α : Type} (f : Nat → Option α) (u : Nat)
    (v : Option α) : setFun f u v u = v := by
  simp [setFun]

theorem setFun_other {α : Type} (f : Nat → Option α) (u : Nat)
    (v : Option α) (x : Nat) (hx : x ≠ u) : setFun f u v x = f x := by
  simp [setFun, hx]

/-- C5: a document upload whose session state is outside the nine routed
states — including non-idle tags such as "splitting" or "word_to_pdf" and
the absent/idle state — is dispatched to the default document-to-PDF
conversion path. -/
theorem route_document_default (s : Option String)
    (h : s ∉ routed_states) : route_document s = DocRoute.convert := by
  simp only [routed_states, List.mem_cons, List.not_mem_nil, or_false,
    not_or] at h
  obtain ⟨h1, h2, h3, h4, h5, h6, h7, h8, h9⟩ := h
  simp [route_document, h1, h2, h3, h4, h5, h6, h7, h8, h9]

/-- C5 witness: the "splitting" tag is not routed, and a document uploaded
in that state goes to the conversion path. -/
theorem route_document_default_witness :
    (some "splitting" : Option String) ∉ routed_states ∧
      route_document (some "splitting") = DocRoute.convert :=
  ⟨by decide, route_document_default (some "splitting") (by decide)⟩

/-- C9: executing merge with fewer than two staged files never invokes the
merge adapter, replies with the insufficient-input message "no_pdfs", and
leaves the whole store — in particular the "merging" state — unchanged. -/
theorem do_merge_insufficient (oracle : AdapterOracle) (u : Nat)
    (st : BotState)
    (hlen : (UserStateManager.get_files st u).length < 2)
    (hst : UserStateManager.get_state st u = some "merging") :
    handle_do_merge oracle u st =
      { state := st, replies := ["no_pdfs"], calls := [], cleaned := [] }
    ∧ UserStateManager.get_state (handle_do_merge oracle u st).state u
        = some "merging" := by
  have h : handle_do_merge oracle u st =
      { state := st, replies := ["no_pdfs"], calls := [], cleaned := [] } := by
    simp [handle_do_merge, hlen]
  exact ⟨h, by rw [h]; exact hst⟩

/-- C9 witness: user 1 in state "merging" with zero staged files. -/
theorem do_merge_insufficient_witness :
    (UserStateManager.get_files stMergingOnly 1).length < 2
    ∧ UserStateManager.get_state stMergingOnly 1 = some "merging"
    ∧ (handle_do_merge failOracle 1 stMergingOnly =
        { state := stMergingOnly, replies := ["no_pdfs"], calls := [],
          cleaned := [] }
      ∧ UserStateManager.get_state
          (handle_do_merge failOracle 1 stMergingOnly).state 1
            = some "merging") :=
  ⟨by decide, by decide,
    do_merge_insufficient failOracle 1 stMergingOnly (by decide) (by decide)⟩

/-- C6: when the unlock adapter raises on a wrong password while the user
waits in "unlocking_wait_password", the reply is the distinct
"password_incorrect" message (the generic "error" is not sent), and both
the state and the staged "pdf_path" parameter are retained for a retry. -/
theorem unlock_wrong_password_retry (oracle : AdapterOracle) (u : Nat)
    (password : String) (st : BotState)
    (hst : UserStateManager.get_state st u = some "unlocking_wait_password")
    (hfail : oracle.unlock_pdf (UserStateManager.get_temp st u "pdf_path")
        password = none) :
    (handle_unlock_password oracle u password st).replies
      = ["unlocking_pdf", "password_incorrect"]
    ∧ "error" ∉ (handle_unlock_password oracle u password st).replies
    ∧ UserStateManager.get_state
        (handle_unlock_password oracle u password st).state u
          = some "unlocking_wait_password"
    ∧ UserStateManager.get_temp
        (handle_unlock_password oracle u password st).state u "pdf_path"
          = UserStateManager.get_temp st u "pdf_path" := by
  have h : handle_unlock_password oracle u password st =
      { state := st, replies := ["unlocking_pdf", "password_incorrect"],
        calls := [AdapterCall.unlockPdf
          (UserStateManager.get_temp st u "pdf_path") password],
        cleaned := [] } := by
    simp [handle_unlock_password, hfail]
  rw [h]
  exact ⟨rfl, by simp, hst, rfl⟩

/-- C6 witness: user 1 with a staged locked PDF and an adapter that
rejects the password "pw". -/
theorem unlock_wrong_password_retry_witness :
    UserStateManager.get_state stUnlockReady 1 = some "unlocking_wait_password"
    ∧ failOracle.unlock_pdf
        (UserStateManager.get_temp stUnlockReady 1 "pdf_path") "pw" = none
    ∧ ((handle_unlock_password failOracle 1 "pw" stUnlockReady).replies
          = ["unlocking_pdf", "password_incorrect"]
      ∧ "error" ∉ (handle_unlock_password failOracle 1 "pw" stUnlockReady).replies
      ∧ UserStateManager.get_state
          (handle_unlock_password failOracle 1 "pw" stUnlockReady).state 1
            = some "unlocking_wait_password"
      ∧ UserStateManager.get_temp
          (handle_unlock_password failOracle 1 "pw" stUnlockReady).state 1 "pdf_path"
            = UserStateManager.get_temp stUnlockReady 1 "pdf_path") :=
  ⟨by decide, rfl,
    unlock_wrong_password_retry failOracle 1 "pw" stUnlockReady (by decide) rfl⟩

/-- C7: in "rotating_wait_angle", a text that does not parse to exactly
90, 180 or 270 yields the "invalid_rotation" re-prompt with the store
unchanged and no adapter call, while the text "90" (with a succeeding
adapter) invokes `rotate_pdf` exactly once with angle 90 and leaves the
session idle. -/
theorem rotation_angle_dispatch (oracle : AdapterOracle) (u : Nat)
    (st : BotState) (txt out : String)
    (hbad : ∀ a : Int, pyParseInt txt = some a →
        a ∉ ([90, 180, 270] : List Int))
    (hok : oracle.rotate_pdf (UserStateManager.get_temp st u "pdf_path") 90
        = some out) :
    handle_rotation_angle oracle u txt st =
      { state := st, replies := ["invalid_rotation"], calls := [],
        cleaned := [] }
    ∧ (handle_rotation_angle oracle u "90" st).calls
        = [AdapterCall.rotatePdf (UserStateManager.get_temp st u "pdf_path") 90]
    ∧ UserStateManager.get_state
        (handle_rotation_angle oracle u "90" st).state u = none := by
  have h90 : pyParseInt "90" = some 90 := by decide
  refine ⟨?_, ?_, ?_⟩
  · cases hp : pyParseInt txt with
    | none => simp [handle_rotation_angle, hp]
    | some a =>
        have hmem := hbad a hp
        simp [handle_rotation_angle, hp, hmem]
  · simp [handle_rotation_angle, h90, hok]
  · simp [handle_rotation_angle, h90, hok, UserStateManager.get_state,
      UserStateManager.clear_state]

/-- C7 witness: user 1 waiting for an angle with a staged PDF; "45" is
re-prompted, "90" rotates once and goes idle. -/
theorem rotation_angle_dispatch_witness :
    (∀ a : Int, pyParseInt "45" = some a → a ∉ ([90, 180, 270] : List Int))
    ∧ okOracle.rotate_pdf (UserStateManager.get_temp stRotateReady 1 "pdf_path") 90
        = some "rotated.pdf"
    ∧ (handle_rotation_angle okOracle 1 "45" stRotateReady =
        { state := stRotateReady, replies := ["invalid_rotation"],
          calls := [], cleaned := [] }
      ∧ (handle_rotation_angle okOracle 1 "90" stRotateReady).calls
          = [AdapterCall.rotatePdf
              (UserStateManager.get_temp stRotateReady 1 "pdf_path") 90]
      ∧ UserStateManager.get_state
          (handle_rotation_angle okOracle 1 "90" stRotateReady).state 1
            = none) := by
  have hbad : ∀ a : Int, pyParseInt "45" = some a →
      a ∉ ([90, 180, 270] : List Int) := by
    intro a ha
    have h45 : pyParseInt "45" = some 45 := by decide
    rw [h45] at ha
    injection ha with ha'
    rw [← ha']
    decide
  exact ⟨hbad, rfl,
    rotation_angle_dispatch okOracle 1 stRotateReady "45" "rotated.pdf" hbad rfl⟩

theorem get_state_clear_state (st : BotState) (u : Nat) :
    UserStateManager.get_state (UserStateManager.clear_state st u) u = none := by
  simp [UserStateManager.get_state, UserStateManager.clear_state]

theorem get_state_clear_files (st : BotState) (u : Nat) :
    UserStateManager.get_state (UserStateManager.clear_files st u) u
      = UserStateManager.get_state st u := by
  cases hf : st.user_files u <;>
    simp [UserStateManager.clear_files, UserStateManager.get_state, hf]

theorem get_files_clear_files (st : BotState) (u : Nat) :
    UserStateManager.get_files (UserStateManager.clear_files st u) u = [] := by
  cases hf : st.user_files u <;>
    simp [UserStateManager.clear_files, UserStateManager.get_files, hf]

/-- C8: pressing merge, uploading three PDFs and executing merge: the
staged list is the three paths in upload order, the merge adapter is
invoked exactly once on that list, and afterwards the state is idle and
the files list empty. -/
theorem merge_three_flow (oracle : AdapterOracle) (u : Nat) (st : BotState)
    (p1 p2 p3 out : String)
    (h1 : pyLowerEndsWithPdf p1 = true)
    (h2 : pyLowerEndsWithPdf p2 = true)
    (h3 : pyLowerEndsWithPdf p3 = true)
    (hok : oracle.merge_pdfs [p1, p2, p3] = some out) :
    UserStateManager.get_files (merge_three u st p1 p2 p3) u = [p1, p2, p3]
    ∧ (handle_do_merge oracle u (merge_three u st p1 p2 p3)).calls
        = [AdapterCall.mergePdfs [p1, p2, p3]]
    ∧ UserStateManager.get_state
        (handle_do_merge oracle u (merge_three u st p1 p2 p3)).state u = none
    ∧ UserStateManager.get_files
        (handle_do_merge oracle u (merge_three u st p1 p2 p3)).state u = [] := by
  have hfiles : UserStateManager.get_files (merge_three u st p1 p2 p3) u
      = [p1, p2, p3] := by
    cases hf : st.user_files u <;>
      simp [merge_three, handle_merge_start, handle_merge_document,
        UserStateManager.set_state, UserStateManager.clear_files,
        UserStateManager.add_file, UserStateManager.get_files, setFun,
        hf, h1, h2, h3]
  have hlen : ¬ (UserStateManager.get_files (merge_three u st p1 p2 p3) u).length < 2 := by
    rw [hfiles]; simp
  have hm : handle_do_merge oracle u (merge_three u st p1 p2 p3) =
      { state := UserStateManager.clear_files
          (UserStateManager.clear_state (merge_three u st p1 p2 p3) u) u,
        replies := ["merging_pdfs", "pdfs_merged", "success"],
        calls := [AdapterCall.mergePdfs [p1, p2, p3]],
        cleaned := [p1, p2, p3].map some ++ [some out] } := by
    simp [handle_do_merge, hfiles, hlen, hok]
  refine ⟨hfiles, ?_, ?_, ?_⟩
  · rw [hm]
  · rw [hm]
    exact (get_state_clear_files _ _).trans (get_state_clear_state _ _)
  · rw [hm]
    exact get_files_clear_files _ _

/-- C8 witness: user 1 uploads "a.pdf", "b.pdf", "c.pdf" starting from an
empty store and the adapter succeeds. -/
theorem merge_three_flow_witness :
    pyLowerEndsWithPdf "a.pdf" = true
    ∧ pyLowerEndsWithPdf "b.pdf" = true
    ∧ pyLowerEndsWithPdf "c.pdf" = true
    ∧ okOracle.merge_pdfs ["a.pdf", "b.pdf", "c.pdf"] = some "merged.pdf"
    ∧ (UserStateManager.get_files (merge_three 1 emptyState "a.pdf" "b.pdf" "c.pdf") 1
          = ["a.pdf", "b.pdf", "c.pdf"]
      ∧ (handle_do_merge okOracle 1 (merge_three 1 emptyState "a.pdf" "b.pdf" "c.pdf")).calls
          = [AdapterCall.mergePdfs ["a.pdf", "b.pdf", "c.pdf"]]
      ∧ UserStateManager.get_state
          (handle_do_merge okOracle 1 (merge_three 1 emptyState "a.pdf" "b.pdf" "c.pdf")).state 1
            = none
      ∧ UserStateManager.get_files
          (handle_do_merge okOracle 1 (merge_three 1 emptyState "a.pdf" "b.pdf" "c.pdf")).state 1
            = []) :=
  ⟨by decide, by decide, by decide, rfl,
    merge_three_flow okOracle 1 emptyState "a.pdf" "b.pdf" "c.pdf" "merged.pdf"
      (by decide) (by decide) (by decide) rfl⟩

/-- C1 counterexample: user 1 is mid-merge with two staged PDFs and the
merge adapter raises.  The generic "error" message is sent, but the state
is still "merging" (not cleared) and `cleanup_files` was never called on
the staged files. -/
theorem adapter_failure_counterexample :
    (handle_do_merge failOracle 1 stMergeTwo).replies = ["merging_pdfs", "error"]
    ∧ UserStateManager.get_files stMergeTwo 1 = ["a.pdf", "b.pdf"]
    ∧ (handle_do_merge failOracle 1 stMergeTwo).cleaned = []
    ∧ ¬ (UserStateManager.get_state
          (handle_do_merge failOracle 1 stMergeTwo).state 1 = none) := by
  decide

/-- C1 amended: when a terminal adapter call raises (merge during
execute-merge, rotate during angle handling), the dispatcher catches it
and sends the generic error message, but the session state is left
unchanged and the staged input files are not deleted — cleanup and state
clearing happen only on the success path. -/
theorem adapter_failure_no_cleanup (oracle : AdapterOracle) (u : Nat)
    (st : BotState)
    (hlen : 2 ≤ (UserStateManager.get_files st u).length)
    (hmf : oracle.merge_pdfs (UserStateManager.get_files st u) = none)
    (hrf : oracle.rotate_pdf (UserStateManager.get_temp st u "pdf_path") 90
        = none) :
    ((handle_do_merge oracle u st).replies = ["merging_pdfs", "error"]
      ∧ (handle_do_merge oracle u st).state = st
      ∧ (handle_do_merge oracle u st).cleaned = [])
    ∧ ((handle_rotation_angle oracle u "90" st).replies = ["rotating_pdf", "error"]
      ∧ (handle_rotation_angle oracle u "90" st).state = st
      ∧ (handle_rotation_angle oracle u "90" st).cleaned = []) := by
  have hnl : ¬ (UserStateManager.get_files st u).length < 2 := not_lt.mpr hlen
  have h90 : pyParseInt "90" = some 90 := by decide
  constructor
  · have h : handle_do_merge oracle u st =
        { state := st, replies := ["merging_pdfs", "error"],
          calls := [AdapterCall.mergePdfs (UserStateManager.get_files st u)],
          cleaned := [] } := by
      simp [handle_do_merge, hnl, hmf]
    rw [h]
    exact ⟨rfl, rfl, rfl⟩
  · have h : handle_rotation_angle oracle u "90" st =
        { state := st, replies := ["rotating_pdf", "error"],
          calls := [AdapterCall.rotatePdf
            (UserStateManager.get_temp st u "pdf_path") 90],
          cleaned := [] } := by
      simp [handle_rotation_angle, h90, hrf]
    rw [h]
    exact ⟨rfl, rfl, rfl⟩

/-- C1 amended witness: both failure paths at user 1 with two staged PDFs
and an all-failing adapter oracle. -/
theorem adapter_failure_no_cleanup_witness :
    2 ≤ (UserStateManager.get_files stMergeTwo 1).length
    ∧ failOracle.merge_pdfs (UserStateManager.get_files stMergeTwo 1) = none
    ∧ failOracle.rotate_pdf
        (UserStateManager.get_temp stMergeTwo 1 "pdf_path") 90 = none
    ∧ (((handle_do_merge failOracle 1 stMergeTwo).replies
          = ["merging_pdfs", "error"]
        ∧ (handle_do_merge failOracle 1 stMergeTwo).state = stMergeTwo
        ∧ (handle_do_merge failOracle 1 stMergeTwo).cleaned = [])
      ∧ ((handle_rotation_angle failOracle 1 "90" stMergeTwo).replies
          = ["rotating_pdf", "error"]
        ∧ (handle_rotation_angle failOracle 1 "90" stMergeTwo).state = stMergeTwo
        ∧ (handle_rotation_angle failOracle 1 "90" stMergeTwo).cleaned = [])) :=
  ⟨by decide, rfl, rfl,
    adapter_failure_no_cleanup failOracle 1 stMergeTwo (by decide) rfl rfl⟩

/-- C2 counterexample: a successful rotation (a terminal operation)
leaves the "pdf_path" entry of the params mapping in place — the staged
file reference survives into the next operation. -/
theorem params_survive_counterexample :
    UserStateManager.get_state
      (handle_rotation_angle okOracle 1 "90" stRotateReady).state 1 = none
    ∧ (handle_rotation_angle okOracle 1 "90" stRotateReady).calls
        = [AdapterCall.rotatePdf (some "doc.pdf") 90]
    ∧ UserStateManager.get_temp
        (handle_rotation_angle okOracle 1 "90" stRotateReady).state 1 "pdf_path"
          = some "doc.pdf"
    ∧ ¬ (UserStateManager.get_temp
          (handle_rotation_angle okOracle 1 "90" stRotateReady).state 1 "pdf_path"
            = none) := by
  decide

theorem user_temp_clear_state (st : BotState) (u : Nat) :
    (UserStateManager.clear_state st u).user_temp_data = st.user_temp_data :=
  rfl

theorem user_temp_clear_files (st : BotState) (u : Nat) :
    (UserStateManager.clear_files st u).user_temp_data = st.user_temp_data := by
  cases hf : st.user_files u <;> simp [UserStateManager.clear_files, hf]

/-- C2 amended: the terminal operations clear the state key (and merge
clears the files list), but none of them ever clears the params mapping:
the temp dictionary — including the "pdf_path" key — is preserved
verbatim by merge execution, rotation-angle handling and unlock-password
handling, on success and on failure alike. -/
theorem terminal_ops_preserve_temp (oracle : AdapterOracle) (u : Nat)
    (txt pw : String) (st : BotState) :
    (handle_do_merge oracle u st).state.user_temp_data = st.user_temp_data
    ∧ (handle_rotation_angle oracle u txt st).state.user_temp_data
        = st.user_temp_data
    ∧ (handle_unlock_password oracle u pw st).state.user_temp_data
        = st.user_temp_data := by
  refine ⟨?_, ?_, ?_⟩
  · by_cases hl : (UserStateManager.get_files st u).length < 2
    · simp [handle_do_merge, hl]
    · cases hm : oracle.merge_pdfs (UserStateManager.get_files st u) <;>
        simp [handle_do_merge, hl, hm, user_temp_clear_files,
          user_temp_clear_state]
  · cases hp : pyParseInt txt with
    | none => simp [handle_rotation_angle, hp]
    | some a =>
        by_cases hmem : a ∈ ([90, 180, 270] : List Int)
        · cases hr : oracle.rotate_pdf (UserStateManager.get_temp st u "pdf_path") a <;>
            simp [handle_rotation_angle, hp, hmem, hr, user_temp_clear_state]
        · simp [handle_rotation_angle, hp, hmem]
  · cases hu : oracle.unlock_pdf (UserStateManager.get_temp st u "pdf_path") pw <;>
      simp [handle_unlock_password, hu, user_temp_clear_state]

/-- C3 counterexample: user 1 is mid-merge and picks English.  The
language is set, but the session state is still "merging": the language
command does not reset the state to idle. -/
theorem language_reset_counterexample :
    get_user_language (handle_language_selection 1 "lang_en" stMergingOnly).1 1
      = "en"
    ∧ (handle_language_selection 1 "lang_en" stMergingOnly).1.user_states 1
        = some "merging"
    ∧ ¬ ((handle_language_selection 1 "lang_en" stMergingOnly).1.user_states 1
          = none) := by
  decide

theorem languages_set_state (st : BotState) (v : Nat) (s : String) :
    (UserStateManager.set_state st v s).user_languages = st.user_languages :=
  rfl

theorem languages_clear_state (st : BotState) (v : Nat) :
    (UserStateManager.clear_state st v).user_languages = st.user_languages :=
  rfl

theorem languages_clear_files (st : BotState) (v : Nat) :
    (UserStateManager.clear_files st v).user_languages = st.user_languages := by
  cases hf : st.user_files v <;> simp [UserStateManager.clear_files, hf]

theorem languages_add_file (st : BotState) (v : Nat) (p : String) :
    (UserStateManager.add_file st v p).user_languages = st.user_languages := by
  cases hf : st.user_files v <;> simp [UserStateManager.add_file, hf]

theorem languages_set_temp (st : BotState) (v : Nat) (k w : String) :
    (UserStateManager.set_temp st v k w).user_languages = st.user_languages := by
  cases hf : st.user_temp_data v <;> simp [UserStateManager.set_temp, hf]

theorem languages_clear_temp (st : BotState) (v : Nat) :
    (UserStateManager.clear_temp st v).user_languages = st.user_languages :=
  rfl

/-- C3 amended: a language-selection command stores the code parsed from
the callback data and redisplays the main menu with "language_changed",
and the stored language persists across every session-store operation
(only another `set_user_language` writes the language dictionary); the
session state field, however, is left exactly as it was, not reset to
idle. -/
theorem language_selection_amended (u : Nat) (data : String) (st : BotState) :
    get_user_language (handle_language_selection u data st).1 u
      = pySplitIndex1 data
    ∧ (handle_language_selection u data st).2 = "language_changed"
    ∧ (handle_language_selection u data st).1.user_states u = st.user_states u
    ∧ (∀ v s, (UserStateManager.set_state
        (handle_language_selection u data st).1 v s).user_languages
          = (handle_language_selection u data st).1.user_languages)
    ∧ (∀ v, (UserStateManager.clear_state
        (handle_language_selection u data st).1 v).user_languages
          = (handle_language_selection u data st).1.user_languages)
    ∧ (∀ v p, (UserStateManager.add_file
        (handle_language_selection u data st).1 v p).user_languages
          = (handle_language_selection u data st).1.user_languages)
    ∧ (∀ v, (UserStateManager.clear_files
        (handle_language_selection u data st).1 v).user_languages
          = (handle_language_selection u data st).1.user_languages)
    ∧ (∀ v k w, (UserStateManager.set_temp
        (handle_language_selection u data st).1 v k w).user_languages
          = (handle_language_selection u data st).1.user_languages)
    ∧ (∀ v, (UserStateManager.clear_temp
        (handle_language_selection u data st).1 v).user_languages
          = (handle_language_selection u data st).1.user_languages) := by
  refine ⟨?_, rfl, rfl, ?_, ?_, ?_, ?_, ?_, ?_⟩
  · simp [handle_language_selection, set_user_language, get_user_language]
  · exact fun v s => languages_set_state _ v s
  · exact fun v => languages_clear_state _ v
  · exact fun v p => languages_add_file _ v p
  · exact fun v => languages_clear_files _ v
  · exact fun v k w => languages_set_temp _ v k w
  · exact fun v => languages_clear_temp _ v

/-- C4 counterexample: "back" is a navigation command, yet pressing it
while user 1 is in state "merging" clears the state field — navigation is
not state-neutral for "back_to_menu". -/
theorem navigation_back_counterexample :
    "back_to_menu" ∈ navigation_commands
    ∧ (handle_navigation 1 "back_to_menu" stMergingOnly).1.user_states 1 = none
    ∧ ¬ ((handle_navigation 1 "back_to_menu" stMergingOnly).1.user_states 1
          = stMergingOnly.user_states 1) := by
  decide

/-- C4 amended: the five menu-category commands change only the displayed
menu and leave the whole store untouched; the "back" command also
redisplays the main menu but in addition clears the pressing user's state
to idle, leaving files, params, languages and every other user's state
unchanged. -/
theorem navigation_amended (u : Nat) (data : String) (st : BotState)
    (hmenu : data ∈ ["menu_organize", "menu_optimize", "menu_convert",
      "menu_edit", "menu_security"]) :
    (handle_navigation u data st).1 = st
    ∧ (handle_navigation u "back_to_menu" st).2 = Menu.main
    ∧ (handle_navigation u "back_to_menu" st).1.user_states u = none
    ∧ (handle_navigation u "back_to_menu" st).1.user_files = st.user_files
    ∧ (handle_navigation u "back_to_menu" st).1.user_temp_data = st.user_temp_data
    ∧ (handle_navigation u "back_to_menu" st).1.user_languages = st.user_languages
    ∧ ∀ v, v ≠ u →
        (handle_navigation u "back_to_menu" st).1.user_states v
          = st.user_states v := by
  have hb : handle_navigation u "back_to_menu" st =
      (UserStateManager.clear_state st u, Menu.main) := by
    simp [handle_navigation]
  refine ⟨?_, ?_, ?_, ?_, ?_, ?_, ?_⟩
  · simp only [List.mem_cons, List.not_mem_nil, or_false] at hmenu
    rcases hmenu with rfl | rfl | rfl | rfl | rfl <;> rfl
  · rw [hb]
  · rw [hb]
    simp [UserStateManager.clear_state]
  · rw [hb]
    rfl
  · rw [hb]
    rfl
  · rw [hb]
    rfl
  · intro v hv
    rw [hb]
    exact setFun_other st.user_states u none v hv

/-- C4 amended witness: the "menu_organize" command with user 1 mid-merge
leaves the store untouched, and "back_to_menu" clears only that user's
state. -/
theorem navigation_amended_witness :
    "menu_organize" ∈ ["menu_organize", "menu_optimize", "menu_convert",
      "menu_edit", "menu_security"]
    ∧ ((handle_navigation 1 "menu_organize" stMergingOnly).1 = stMergingOnly
      ∧ (handle_navigation 1 "back_to_menu" stMergingOnly).2 = Menu.main
      ∧ (handle_navigation 1 "back_to_menu" stMergingOnly).1.user_states 1 = none
      ∧ (handle_navigation 1 "back_to_menu" stMergingOnly).1.user_files
          = stMergingOnly.user_files
      ∧ (handle_navigation 1 "back_to_menu" stMergingOnly).1.user_temp_data
          = stMergingOnly.user_temp_data
      ∧ (handle_navigation 1 "back_to_menu" stMergingOnly).1.user_languages
          = stMergingOnly.user_languages
      ∧ ∀ v, v ≠ 1 →
          (handle_navigation 1 "back_to_menu" stMergingOnly).1.user_states v
            = stMergingOnly.user_states v) :=
  ⟨by decide, navigation_amended 1 "menu_organize" stMergingOnly (by decide)⟩

theorem os_remove_ok_subset (fails : String → Bool) (fs fs' : List String)
    (p : String) (h : os_remove fails fs p = Except.ok fs') : fs' ⊆ fs := by
  unfold os_remove at h
  by_cases hf : fails p = true
  · rw [if_pos hf] at h
    cases h
  · rw [if_neg hf] at h
    by_cases hm : p ∈ fs
    · rw [if_pos hm] at h
      injection h with h'
      rw [← h']
      exact fun x hx => (List.mem_filter.mp hx).1
    · rw [if_neg hm] at h
      cases h

theorem cleanup_step_fs_subset (fails : String → Bool) (acc : CleanupResult)
    (fp : Option String) : (cleanup_step fails acc fp).fs ⊆ acc.fs := by
  cases fp with
  | none => exact fun x hx => hx
  | some p =>
      simp only [cleanup_step]
      split
      · cases hrem : os_remove fails acc.fs p with
        | ok fs' =>
            simp only [hrem]
            exact os_remove_ok_subset fails acc.fs fs' p hrem
        | error e =>
            simp only [hrem]
            exact fun x hx => hx
      · exact fun x hx => hx

theorem cleanup_foldl_fs_subset (fails : String → Bool)
    (ps : List (Option String)) :
    ∀ acc : CleanupResult, (ps.foldl (cleanup_step fails) acc).fs ⊆ acc.fs := by
  induction ps with
  | nil => exact fun acc x hx => hx
  | cons hd tl ih =>
      intro acc x hx
      rw [List.foldl_cons] at hx
      exact cleanup_step_fs_subset fails acc hd (ih (cleanup_step fails acc hd) hx)

theorem cleanup_step_removes (fails : String → Bool) (acc : CleanupResult)
    (p : String) (hnf : fails p = false) (hne : p ≠ "") :
    p ∉ (cleanup_step fails acc (some p)).fs := by
  simp only [cleanup_step]
  by_cases hm : p ∈ acc.fs
  · rw [if_pos ⟨hne, hm⟩]
    cases hrem : os_remove fails acc.fs p with
    | ok fs' =>
        simp only [hrem]
        unfold os_remove at hrem
        rw [if_neg (by simp [hnf]), if_pos hm] at hrem
        injection hrem with h'
        rw [← h']
        simp
    | error e =>
        unfold os_remove at hrem
        rw [if_neg (by simp [hnf]), if_pos hm] at hrem
        cases hrem
  · rw [if_neg (fun hc => hm hc.2)]
    exact hm

theorem cleanup_removes (fails : String → Bool) (hnf : ∀ q, fails q = false)
    (ps : List (Option String)) :
    ∀ (acc : CleanupResult) (p : String), some p ∈ ps → p ≠ "" →
      p ∉ (ps.foldl (cleanup_step fails) acc).fs := by
  induction ps with
  | nil =>
      intro acc p hp _
      cases hp
  | cons hd tl ih =>
      intro acc p hp hne
      rw [List.foldl_cons]
      rcases List.mem_cons.mp hp with heq | hmem
      · intro hcontra
        have h1 := cleanup_foldl_fs_subset fails tl (cleanup_step fails acc hd) hcontra
        rw [← heq] at h1
        exact cleanup_step_removes fails acc p (hnf p) hne h1
      · exact ih (cleanup_step fails acc hd) p hmem hne

theorem cleanup_step_skip (fails : String → Bool) (acc : CleanupResult)
    (fp : Option String)
    (h : ∀ p, fp = some p → p = "" ∨ p ∉ acc.fs) :
    cleanup_step fails acc fp = acc := by
  cases fp with
  | none => rfl
  | some p =>
      have hcond : ¬ (p ≠ "" ∧ p ∈ acc.fs) := by
        rintro ⟨h1, h2⟩
        rcases h p rfl with he | hn
        · exact h1 he
        · exact hn h2
      simp only [cleanup_step]
      rw [if_neg hcond]

theorem cleanup_foldl_noop (fails : String → Bool)
    (ps : List (Option String)) :
    ∀ acc : CleanupResult, (∀ p, some p ∈ ps → p = "" ∨ p ∉ acc.fs) →
      ps.foldl (cleanup_step fails) acc = acc := by
  induction ps with
  | nil => exact fun acc _ => rfl
  | cons hd tl ih =>
      intro acc h
      rw [List.foldl_cons]
      have hstep : cleanup_step fails acc hd = acc :=
        cleanup_step_skip fails acc hd
          (fun p hp => h p (by rw [← hp]; exact List.mem_cons_self hd tl))
      rw [hstep]
      exact ih acc (fun p hp => h p (List.mem_cons_of_mem hd hp))

theorem cleanup_step_attempts (fails : String → Bool) (acc : CleanupResult)
    (fp : Option String) (p : String)
    (hfs : p ∉ acc.fs) (hat : p ∉ acc.attempts) :
    p ∉ (cleanup_step fails acc fp).attempts := by
  cases fp with
  | none => exact hat
  | some q =>
      simp only [cleanup_step]
      split
      · rename_i hc
        have hpq : ¬ p = q := fun h => hfs (by rw [h]; exact hc.2)
        cases hrem : os_remove fails acc.fs q with
        | ok fs' =>
            simp only [hrem]
            simp [hat, hpq]
        | error e =>
            simp only [hrem]
            simp [hat, hpq]
      · exact hat

theorem cleanup_foldl_attempts (fails : String → Bool)
    (ps : List (Option String)) :
    ∀ (acc : CleanupResult) (p : String), p ∉ acc.fs → p ∉ acc.attempts →
      p ∉ (ps.foldl (cleanup_step fails) acc).attempts := by
  induction ps with
  | nil =>
      intro acc p _ hat
      exact hat
  | cons hd tl ih =>
      intro acc p hfs hat
      rw [List.foldl_cons]
      exact ih (cleanup_step fails acc hd) p
        (fun h => hfs (cleanup_step_fs_subset fails acc hd h))
        (cleanup_step_attempts fails acc hd p hfs hat)

theorem os_remove_error_fails (fails : String → Bool) (fs : List String)
    (p e : String) (hm : p ∈ fs) (h : os_remove fails fs p = Except.error e) :
    fails e = true := by
  unfold os_remove at h
  by_cases hf : fails p = true
  · rw [if_pos hf] at h
    injection h with h'
    rw [← h']
    exact hf
  · rw [if_neg hf, if_pos hm] at h
    cases h

theorem cleanup_step_errors (fails : String → Bool) (acc : CleanupResult)
    (fp : Option String)
    (hacc : ∀ e ∈ acc.errors, fails e = true) :
    ∀ e ∈ (cleanup_step fails acc fp).errors, fails e = true := by
  cases fp with
  | none => exact hacc
  | some q =>
      simp only [cleanup_step]
      split
      · rename_i hc
        cases hrem : os_remove fails acc.fs q with
        | ok fs' =>
            simp only [hrem]
            exact hacc
        | error e' =>
            simp only [hrem]
            intro e he
            simp only [List.mem_append, List.mem_singleton] at he
            rcases he with he | he
            · exact hacc e he
            · rw [he]
              exact os_remove_error_fails fails acc.fs q e' hc.2 hrem
      · exact hacc

theorem cleanup_foldl_errors (fails : String → Bool)
    (ps : List (Option String)) :
    ∀ acc : CleanupResult, (∀ e ∈ acc.errors, fails e = true) →
      ∀ e ∈ (ps.foldl (cleanup_step fails) acc).errors, fails e = true := by
  induction ps with
  | nil => exact fun acc hacc => hacc
  | cons hd tl ih =>
      intro acc hacc
      rw [List.foldl_cons]
      exact ih (cleanup_step fails acc hd) (cleanup_step_errors fails acc hd hacc)

/-- C10: `cleanup_files` never propagates an exception — with a remove
oracle that only fails on missing paths, running cleanup a second time on
the already-cleaned filesystem is a perfect no-op (nothing attempted,
nothing logged, filesystem unchanged), non-existent paths are skipped
without an `os.remove` attempt, and under any oracle every logged error
comes from a failing remove, never from a missing path. -/
theorem cleanup_files_idempotent (ps : List (Option String)) (fs : List String) :
    cleanup_files noFail ps (cleanup_files noFail ps fs).fs
      = { fs := (cleanup_files noFail ps fs).fs, attempts := [], errors := [] }
    ∧ (∀ p : String, some p ∈ ps → p ∉ fs →
        p ∉ (cleanup_files noFail ps fs).attempts)
    ∧ (∀ (g : String → Bool) (qs : List (Option String)) (gs : List String),
        ∀ e ∈ (cleanup_files g qs gs).errors, g e = true) := by
  refine ⟨?_, ?_, ?_⟩
  · unfold cleanup_files
    apply cleanup_foldl_noop
    intro p hp
    by_cases hne : p = ""
    · exact Or.inl hne
    · exact Or.inr (cleanup_removes noFail (fun q => rfl) ps
        { fs := fs, attempts := [], errors := [] } p hp hne)
  · intro p hp hfs
    unfold cleanup_files
    exact cleanup_foldl_attempts noFail ps
      { fs := fs, attempts := [], errors := [] } p hfs (fun h => absurd h (List.not_mem_nil p))
  · intro g qs gs
    unfold cleanup_files
    exact cleanup_foldl_errors g qs
      { fs := gs, attempts := [], errors := [] }
      (fun e he => absurd he (List.not_mem_nil e))

/-- C10 witness: cleaning `["a", missing "b"]` twice on filesystem
`["a", "c"]`: the second run is a no-op and "b" is never attempted. -/
theorem cleanup_files_idempotent_witness :
    (cleanup_files noFail [some "a", none, some "b"]
        (cleanup_files noFail [some "a", none, some "b"] ["a", "c"]).fs
      = { fs := (cleanup_files noFail [some "a", none, some "b"] ["a", "c"]).fs,
          attempts := [], errors := [] })
    ∧ some "b" ∈ ([some "a", none, some "b"] : List (Option String))
    ∧ "b" ∉ ["a", "c"]
    ∧ "b" ∉ (cleanup_files noFail [some "a", none, some "b"] ["a", "c"]).attempts :=
  ⟨(cleanup_files_idempotent [some "a", none, some "b"] ["a", "c"]).1,
    by decide, by decide,
    (cleanup_files_idempotent [some "a", none, some "b"] ["a", "c"]).2.1 "b"
      (by decide) (by decide)⟩

end PDFBot
